import Mathlib

/-!
Shallow embedding of the grc-risk-dashboard core: the record store
(`load_df` / `save_record`), the scoring function (`score_risk`), the
keyword classifier (`auto_assign`), the matrix builder (`build_matrix`)
from `src/grc_risk_dashboard/helpers.py`, and the IOC-to-record helpers
(`map_score_to_li_impact`, `create_risk_record_from_ioc`) from `app.py`.
Python machine integers are modelled as `Int` (no overflow concerns at
these magnitudes); dynamically-typed DataFrame cell values are modelled
by an explicit `Value` type; the CSV file on disk is modelled as an
`Option DataFrame` (`none` = no file yet).
-/

/-- A dynamically-typed cell value as it may appear in a loaded DataFrame
row: an integer, a string, or a missing value. -/
inductive Value where
  | intV : Int → Value
  | strV : String → Value
  | noneV : Value
deriving DecidableEq, Repr

/-- Python `str.lower()`, modelled character-wise. -/
def pyLower (cs : List Char) : List Char :=
  cs.map Char.toLower

/-- Python `str.strip()`: drop whitespace from both ends. -/
def pyStrip (cs : List Char) : List Char :=
  ((cs.dropWhile Char.isWhitespace).reverse.dropWhile Char.isWhitespace).reverse

/-- Decimal digit string to `Nat`: `some` only when the characters are a
nonempty run of digits. -/
def parseNatDigits (cs : List Char) : Option Nat :=
  if cs ≠ [] ∧ cs.all Char.isDigit then
    some (cs.foldl (fun a c => a * 10 + (c.toNat - 48)) 0)
  else none

/-- Python `int(s)` on a string: strip whitespace, optional sign, then a
nonempty digit run; anything else raises `ValueError` — modelled as
`none`. -/
def pyIntOfChars (cs : List Char) : Option Int :=
  match pyStrip cs with
  | '+' :: rest => (parseNatDigits rest).map (fun n => (n : Int))
  | '-' :: rest => (parseNatDigits rest).map (fun n => -(n : Int))
  | rest => (parseNatDigits rest).map (fun n => (n : Int))

/-- Python `int(x)` coercion as used in `build_matrix`: integers pass
through, strings are parsed, anything else raises — modelled as
`none`. -/
def pyInt : Value → Option Int
  | .intV n => some n
  | .strV s => pyIntOfChars s.data
  | .noneV => none

/-- One persisted risk record, with the fields produced by
`create_risk_record_from_ioc` in `app.py`.  `likelihood` and `impact` are
`Value`s because rows re-loaded from CSV may hold arbitrary cell
contents, which `build_matrix` must tolerate. -/
structure RiskRecord where
  risk_id : String
  risk_name : String
  risk_description : String
  likelihood : Value
  impact : Value
  risk_score : Int
  risk_cell : String
  owner : String
  mitigation : String
  timestamp : String
deriving DecidableEq, Repr

/-- A pandas DataFrame, reduced to what the claims observe: its ordered
column names and its ordered rows. -/
structure DataFrame where
  columns : List String
  rows : List RiskRecord
deriving DecidableEq, Repr

/-- The column list hard-coded in `load_df` (helpers.py lines 21-25) for
the no-file case. -/
def load_df_columns : List String :=
  ["risk_id", "risk_name", "risk_description",
   "likelihood", "impact", "risk_score",
   "risk_cell", "owner", "mitigation", "timestamp"]

/-- `load_df` (helpers.py lines 16-26): if the CSV file exists, parse and
return it; otherwise return an empty DataFrame with the canonical
columns. -/
def load_df (file : Option DataFrame) : DataFrame :=
  match file with
  | some df => df
  | none => { columns := load_df_columns, rows := [] }

/-- `save_record` (helpers.py lines 28-33): load the current table,
concatenate the new record as the last row, rewrite the whole file. -/
def save_record (record : RiskRecord) (file : Option DataFrame) : Option DataFrame :=
  let df := load_df file
  some { columns := df.columns, rows := df.rows ++ [record] }

/-- Sequential (no-concurrency) appends of a list of records, in order. -/
def save_all (records : List RiskRecord) (file : Option DataFrame) : Option DataFrame :=
  records.foldl (fun st r => save_record r st) file

/-- `score_risk` (helpers.py lines 35-37). -/
def score_risk (likelihood : Int) (impact : Int) : Int :=
  likelihood * impact

/-- `KEYWORD_MAP` (helpers.py lines 8-14), an insertion-ordered dict,
modelled as an ordered association list. -/
def KEYWORD_MAP : List (String × (Int × Int)) :=
  [("data breach", (4, 5)),
   ("phishing", (3, 4)),
   ("ransomware", (5, 5)),
   ("insider threat", (3, 4)),
   ("system failure", (2, 3))]

/-- Python `needle in hay` substring containment, on character lists. -/
def strContains (hay needle : List Char) : Bool :=
  hay.tails.any (fun t => needle.isPrefixOf t)

/-- The `.lower().strip()` normalization applied by `auto_assign` to its
input. -/
def normDesc (description : String) : List Char :=
  pyStrip (pyLower description.data)

/-- `auto_assign` (helpers.py lines 39-45): lower-case and strip the
description, return the value of the first `KEYWORD_MAP` entry whose key
occurs as a substring, else `none`. -/
def auto_assign (description : String) : Option (Int × Int) :=
  let desc := normDesc description
  KEYWORD_MAP.findSome? (fun kv => if strContains desc kv.1.data then some kv.2 else none)

/-- `map_score_to_li_impact` (app.py lines 94-114): threshold mapping
from a 0-100 threat score to a (likelihood, impact) pair. -/
def map_score_to_li_impact (score : Int) : Int × Int :=
  if score ≥ 80 then (5, 5)
  else if score ≥ 60 then (4, 4)
  else if score ≥ 40 then (3, 3)
  else if score ≥ 20 then (2, 2)
  else (1, 1)

/-- `create_risk_record_from_ioc` (app.py lines 116-132).  The random
uuid and the wall-clock timestamp are nondeterministic inputs of the
code, passed here as explicit parameters `rid` and `ts`. -/
def create_risk_record_from_ioc (ioc_type ioc_value context_snippet : String)
    (likelihood impact : Int) (rid ts : String) : RiskRecord :=
  { risk_id := rid,
    risk_name := ioc_type ++ ": " ++ ioc_value,
    risk_description := context_snippet.take 400,
    likelihood := .intV likelihood,
    impact := .intV impact,
    risk_score := score_risk likelihood impact,
    risk_cell := toString likelihood ++ "x" ++ toString impact,
    owner := "AutoDetector",
    mitigation := "",
    timestamp := ts }

/-- One iteration of the `build_matrix` loop (helpers.py lines 50-57):
coerce likelihood and impact with `int(...)`, subtract 1, and if both
land in [0,5) increment cell `(4 - impact, likelihood)`; any coercion
failure skips the row. -/
def mstep (m : Fin 5 → Fin 5 → Nat) (r : RiskRecord) : Fin 5 → Fin 5 → Nat :=
  match pyInt r.likelihood, pyInt r.impact with
  | some l0, some i0 =>
    let likelihood := l0 - 1
    let impact := i0 - 1
    if 0 ≤ likelihood ∧ likelihood < 5 ∧ 0 ≤ impact ∧ impact < 5 then
      fun a b =>
        if a.val = 4 - impact.toNat ∧ b.val = likelihood.toNat then m a b + 1 else m a b
    else m
  | _, _ => m

/-- `build_matrix` (helpers.py lines 47-58): fold the per-row update over
the rows, starting from the 5x5 zero matrix. -/
def build_matrix (df : List RiskRecord) : Fin 5 → Fin 5 → Nat :=
  df.foldl mstep (fun _ _ => 0)

/-- Number of rows whose likelihood and impact coerce to exactly `l` and
`i`. -/
def countLI (df : List RiskRecord) (l i : Int) : Nat :=
  (df.filter (fun r => pyInt r.likelihood == some l && pyInt r.impact == some i)).length

/-- Whether a row is tabulated by `build_matrix`: both fields coerce and
both land in [1,5]. -/
def rowCounted (r : RiskRecord) : Bool :=
  match pyInt r.likelihood, pyInt r.impact with
  | some l, some i => decide (1 ≤ l ∧ l ≤ 5 ∧ 1 ≤ i ∧ i ≤ 5)
  | _, _ => false

/-- Total of all 25 matrix cells. -/
def matrixSum (m : Fin 5 → Fin 5 → Nat) : Nat :=
  ((List.finRange 5).map (fun a => ((List.finRange 5).map (fun b => m a b)).sum)).sum

/-- A row with every field irrelevant to `build_matrix` defaulted, used
for concrete matrix examples. -/
def mkRow (l i : Value) : RiskRecord :=
  { risk_id := "", risk_name := "", risk_description := "",
    likelihood := l, impact := i, risk_score := 0, risk_cell := "",
    owner := "", mitigation := "", timestamp := "" }

/-- Whether one `build_matrix` loop iteration on row `r` increments cell
`(a, b)`: both fields coerce, both land in [1,5], and `(a, b)` is exactly
`(4 - (impact-1), likelihood-1)`. -/
def rowHits (r : RiskRecord) (a b : Fin 5) : Bool :=
  match pyInt r.likelihood, pyInt r.impact with
  | some l, some i =>
    decide (1 ≤ l ∧ l ≤ 5 ∧ 1 ≤ i ∧ i ≤ 5 ∧ a.val = 4 - (i - 1).toNat ∧ b.val = (l - 1).toNat)
  | _, _ => false

/-- The two-record table from the spec's malformed-row test: one row with
(likelihood=3, impact=4) and one with (likelihood=3, impact="abc"). -/
def exampleTwo : List RiskRecord :=
  [mkRow (.intV 3) (.intV 4), mkRow (.intV 3) (.strV "abc")]

/-- The column set the spec's section 6 asserts for the persisted file
layout (stated from the spec's words, for comparison with the source's
`load_df_columns`); it lists an `attack_type` column. -/
def spec_canonical_columns : List String :=
  ["risk_id", "risk_name", "risk_description", "likelihood", "impact",
   "risk_score", "risk_cell", "owner", "mitigation", "attack_type", "timestamp"]

lemma load_df_save_all (rs : List RiskRecord) (s : Option DataFrame) :
    (load_df (save_all rs s)).rows = (load_df s).rows ++ rs := by
  induction rs generalizing s with
  | nil => simp [save_all]
  | cons r rs ih =>
    have h := ih (save_record r s)
    simp only [save_all, List.foldl] at h ⊢
    rw [h]
    simp [save_record, load_df]

/-- C1: starting from an empty store (no file), appending records
`r1..rN` sequentially with `save_record` and then calling `load_df`
yields exactly the list `r1..rN`: N rows, in append order, each equal in
all fields to the record appended. -/
theorem save_then_load_roundtrip (rs : List RiskRecord) :
    (load_df (save_all rs none)).rows = rs ∧
    (load_df (save_all rs none)).rows.length = rs.length := by
  have h : (load_df (save_all rs none)).rows = rs := by
    rw [load_df_save_all]
    simp [load_df]
  exact ⟨h, by rw [h]⟩

/-- C4 counterexample: the canonical column set returned by `load_df`
when no file exists is not the spec's claimed column set — the code has
no `attack_type` column. -/
theorem load_df_columns_ne_spec : (load_df none).columns ≠ spec_canonical_columns := by
  decide

/-- C4 (amended): when no persisted file exists, `load_df` returns an
empty sequence whose column set is exactly risk_id, risk_name,
risk_description, likelihood, impact, risk_score, risk_cell, owner,
mitigation, timestamp — with no `attack_type` column. -/
theorem load_df_no_file_empty :
    (load_df none).rows = [] ∧
    (load_df none).columns =
      ["risk_id", "risk_name", "risk_description", "likelihood", "impact",
       "risk_score", "risk_cell", "owner", "mitigation", "timestamp"] := by
  decide

/-- C5: `auto_assign` lower-cases its input and returns the pair of the
first `KEYWORD_MAP` entry whose keyword occurs as a substring, `none` if
none occurs: the three spec examples hold, and any description whose
normalized text contains both "data breach" and "ransomware" yields
(4, 5) because "data breach" is earlier in the table. -/
theorem auto_assign_first_match :
    auto_assign "We suffered a ransomware attack" = some (5, 5) ∧
    auto_assign "minor system failure on server" = some (2, 3) ∧
    auto_assign "nothing relevant here" = none ∧
    ∀ d : String, strContains (normDesc d) "data breach".data = true →
      strContains (normDesc d) "ransomware".data = true →
      auto_assign d = some (4, 5) := by
  refine ⟨by decide, by decide, by decide, ?_⟩
  intro d h1 _h2
  simp [auto_assign, KEYWORD_MAP, List.findSome?, h1]

/-- Witness for C5: a concrete description containing both "data breach"
and "ransomware" classifies as (4, 5). -/
theorem auto_assign_first_match_witness :
    auto_assign "data breach then ransomware" = some (4, 5) :=
  auto_assign_first_match.2.2.2 "data breach then ransomware" (by decide) (by decide)

/-- C6: for likelihood and impact each in [1,5], `score_risk` returns
their product, an integer in [1,25]. -/
theorem score_risk_product_bounds (l i : Int)
    (hl1 : 1 ≤ l) (hl2 : l ≤ 5) (hi1 : 1 ≤ i) (hi2 : i ≤ 5) :
    score_risk l i = l * i ∧ 1 ≤ score_risk l i ∧ score_risk l i ≤ 25 := by
  refine ⟨rfl, ?_, ?_⟩ <;> simp only [score_risk] <;> nlinarith

/-- Witness for C6 at likelihood 3, impact 4. -/
theorem score_risk_product_bounds_witness :
    score_risk 3 4 = 3 * 4 ∧ 1 ≤ score_risk 3 4 ∧ score_risk 3 4 ≤ 25 :=
  score_risk_product_bounds 3 4 (by decide) (by decide) (by decide) (by decide)

/-- C7: `score_risk` is monotonically non-decreasing in each argument
independently over [1,5]. -/
theorem score_risk_monotone (l l' i i' : Int)
    (hl1 : 1 ≤ l) (hl2 : l ≤ 5) (hl1' : 1 ≤ l') (hl2' : l' ≤ 5)
    (hi1 : 1 ≤ i) (hi2 : i ≤ 5) (hi1' : 1 ≤ i') (hi2' : i' ≤ 5) :
    (l ≤ l' → score_risk l i ≤ score_risk l' i) ∧
    (i ≤ i' → score_risk l i ≤ score_risk l i') := by
  constructor <;> intro h <;> simp only [score_risk] <;> nlinarith

/-- Witness for C7 at (2, 3) against (4, 3). -/
theorem score_risk_monotone_witness : score_risk 2 3 ≤ score_risk 4 3 :=
  (score_risk_monotone 2 4 3 3 (by decide) (by decide) (by decide) (by decide)
      (by decide) (by decide) (by decide) (by decide)).1 (by decide)

/-- C8: every record produced by `create_risk_record_from_ioc` satisfies
`risk_score = likelihood * impact` and `risk_cell` is the string
"likelihood x impact"; concretely, likelihood 3 and impact 4 give
risk_cell "3x4". -/
theorem create_risk_record_invariants (t v c rid ts : String) (l i : Int) :
    (create_risk_record_from_ioc t v c l i rid ts).risk_score = l * i ∧
    (create_risk_record_from_ioc t v c l i rid ts).risk_cell =
      toString l ++ "x" ++ toString i ∧
    (create_risk_record_from_ioc "IPs" "1.2.3.4" "ctx" 3 4 "id" "ts").risk_cell = "3x4" :=
  ⟨rfl, rfl, by decide⟩

/-- C9: over reputation scores in [0,100], `map_score_to_li_impact`
follows the documented bucket thresholds. -/
theorem map_score_buckets (s : Int) (h0 : 0 ≤ s) (h100 : s ≤ 100) :
    (80 ≤ s → map_score_to_li_impact s = (5, 5)) ∧
    (60 ≤ s → s < 80 → map_score_to_li_impact s = (4, 4)) ∧
    (40 ≤ s → s < 60 → map_score_to_li_impact s = (3, 3)) ∧
    (20 ≤ s → s < 40 → map_score_to_li_impact s = (2, 2)) ∧
    (s < 20 → map_score_to_li_impact s = (1, 1)) := by
  refine ⟨?_, ?_, ?_, ?_, ?_⟩ <;> intros <;> simp only [map_score_to_li_impact] <;>
    split_ifs <;> first | rfl | omega

/-- Witness for C9 at score 85. -/
theorem map_score_buckets_witness : map_score_to_li_impact 85 = (5, 5) :=
  (map_score_buckets 85 (by decide) (by decide)).1 (by decide)

/-- C10: `map_score_to_li_impact` is total over all integers: it always
returns an equal pair with both components in [1,5]; every score below
20 (including negatives) yields (1,1) and every score of 80 or more
(including above 100) yields (5,5). -/
theorem map_score_total (s : Int) :
    (map_score_to_li_impact s).1 = (map_score_to_li_impact s).2 ∧
    1 ≤ (map_score_to_li_impact s).1 ∧ (map_score_to_li_impact s).1 ≤ 5 ∧
    (s < 20 → map_score_to_li_impact s = (1, 1)) ∧
    (80 ≤ s → map_score_to_li_impact s = (5, 5)) := by
  simp only [map_score_to_li_impact]
  split_ifs <;> refine ⟨rfl, by decide, by decide, ?_, ?_⟩ <;> intros <;>
    first | rfl | omega

/-- Witness for C10 at the out-of-range scores -5 and 150. -/
theorem map_score_total_witness :
    map_score_to_li_impact (-5) = (1, 1) ∧ map_score_to_li_impact 150 = (5, 5) :=
  ⟨(map_score_total (-5)).2.2.2.1 (by decide), (map_score_total 150).2.2.2.2 (by decide)⟩

/-- Witness for C1 at a one-record store. -/
theorem save_then_load_roundtrip_witness :
    (load_df (save_all [mkRow (.intV 1) (.intV 2)] none)).rows = [mkRow (.intV 1) (.intV 2)] ∧
    (load_df (save_all [mkRow (.intV 1) (.intV 2)] none)).rows.length =
      [mkRow (.intV 1) (.intV 2)].length :=
  save_then_load_roundtrip [mkRow (.intV 1) (.intV 2)]

/-- Witness for C8 at concrete inputs. -/
theorem create_risk_record_invariants_witness :
    (create_risk_record_from_ioc "IPs" "1.2.3.4" "ctx" 3 4 "id" "ts").risk_score = 3 * 4 ∧
    (create_risk_record_from_ioc "IPs" "1.2.3.4" "ctx" 3 4 "id" "ts").risk_cell =
      toString (3 : Int) ++ "x" ++ toString (4 : Int) ∧
    (create_risk_record_from_ioc "IPs" "1.2.3.4" "ctx" 3 4 "id" "ts").risk_cell = "3x4" :=
  create_risk_record_invariants "IPs" "1.2.3.4" "ctx" "id" "ts" 3 4

lemma mstep_apply (m : Fin 5 → Fin 5 → Nat) (r : RiskRecord) (a b : Fin 5) :
    mstep m r a b = m a b + (if rowHits r a b then 1 else 0) := by
  unfold mstep rowHits
  cases hl : pyInt r.likelihood with
  | none => simp
  | some l =>
    cases hi : pyInt r.impact with
    | none => simp
    | some i =>
      simp only
      by_cases hrange : 0 ≤ l - 1 ∧ l - 1 < 5 ∧ 0 ≤ i - 1 ∧ i - 1 < 5
      · rw [if_pos hrange]
        by_cases hcell : a.val = 4 - (i - 1).toNat ∧ b.val = (l - 1).toNat
        · rw [if_pos hcell, if_pos]
          exact decide_eq_true (by omega)
        · rw [if_neg hcell, if_neg, Nat.add_zero]
          intro hc
          have := of_decide_eq_true hc
          exact hcell ⟨this.2.2.2.2.1, this.2.2.2.2.2⟩
      · rw [if_neg hrange, if_neg, Nat.add_zero]
        intro hc
        have := of_decide_eq_true hc
        exact hrange ⟨by omega, by omega, by omega, by omega⟩

lemma foldl_mstep_count (df : List RiskRecord) (m : Fin 5 → Fin 5 → Nat) (a b : Fin 5) :
    df.foldl mstep m a b = m a b + df.countP (fun r => rowHits r a b) := by
  induction df generalizing m with
  | nil => simp
  | cons r df ih =>
    rw [List.foldl_cons, ih (mstep m r), mstep_apply, List.countP_cons]
    by_cases h : rowHits r a b = true <;> simp [h] <;> omega

lemma rowHits_cell (r : RiskRecord) (L I : Fin 5) :
    rowHits r ⟨4 - I.val, by omega⟩ ⟨L.val, L.isLt⟩ =
      (pyInt r.likelihood == some ((L.val : Int) + 1) &&
        pyInt r.impact == some ((I.val : Int) + 1)) := by
  unfold rowHits
  cases hl : pyInt r.likelihood with
  | none => simp
  | some l =>
    cases hi : pyInt r.impact with
    | none => simp
    | some i =>
      rw [Bool.eq_iff_iff]
      simp only [decide_eq_true_eq, Bool.and_eq_true, beq_iff_eq, Option.some.injEq]
      have hL := L.isLt
      have hI := I.isLt
      constructor
      · rintro ⟨h1, h2, h3, h4, h5, h6⟩
        have h5' : 4 - I.val = 4 - (i - 1).toNat := h5
        have h6' : L.val = (l - 1).toNat := h6
        omega
      · rintro ⟨hA, hB⟩
        refine ⟨by omega, by omega, by omega, by omega, ?_, ?_⟩
        · show 4 - I.val = 4 - (i - 1).toNat
          omega
        · show L.val = (l - 1).toNat
          omega

lemma mstep_skip (m : Fin 5 → Fin 5 → Nat) (r : RiskRecord) (h : rowCounted r = false) :
    mstep m r = m := by
  unfold mstep
  unfold rowCounted at h
  cases hl : pyInt r.likelihood with
  | none => simp [hl]
  | some l =>
    cases hi : pyInt r.impact with
    | none => simp [hl, hi]
    | some i =>
      simp only [hl, hi, decide_eq_false_iff_not] at h
      simp only [hl, hi]
      rw [if_neg]
      intro hc
      exact h ⟨by omega, by omega, by omega, by omega⟩

/-- C2: for every sequence of records, the `build_matrix` cell at
zero-based row `5 - impact` (= `4 - I` for impact `I + 1`), column
`likelihood - 1` equals the number of records whose likelihood and
impact coerce to exactly those values in [1,5]; and for the empty record
set every cell is 0. -/
theorem build_matrix_cell_counts :
    (∀ (df : List RiskRecord) (L I : Fin 5),
        build_matrix df ⟨4 - I.val, by omega⟩ ⟨L.val, L.isLt⟩ =
          countLI df ((L.val : Int) + 1) ((I.val : Int) + 1)) ∧
    (∀ a b : Fin 5, build_matrix [] a b = 0) := by
  refine ⟨?_, by decide⟩
  intro df L I
  unfold build_matrix
  rw [foldl_mstep_count]
  show 0 + _ = _
  rw [Nat.zero_add, countLI, ← List.countP_eq_length_filter]
  have hp : (fun r => rowHits r ⟨4 - I.val, by omega⟩ ⟨L.val, L.isLt⟩) =
      (fun r => pyInt r.likelihood == some ((L.val : Int) + 1) &&
        pyInt r.impact == some ((I.val : Int) + 1)) :=
    funext (fun r => rowHits_cell r L I)
  rw [hp]

/-- Witness for C2: the cell at row 1, column 2 of a one-record table
with (likelihood 3, impact 4) is the count of such records. -/
theorem build_matrix_cell_counts_witness :
    build_matrix [mkRow (.intV 3) (.intV 4)] ⟨1, by omega⟩ ⟨2, by omega⟩ =
      countLI [mkRow (.intV 3) (.intV 4)] 3 4 :=
  build_matrix_cell_counts.1 [mkRow (.intV 3) (.intV 4)] 2 3

/-- C3: `build_matrix` silently skips any record whose likelihood or
impact fails integer coercion or falls outside [1,5] (total function in
this embedding, so it never raises); on the two-record example with one
malformed impact, the grid has a single count at row 1, column 2 and the
sum of all cells is 1. -/
theorem build_matrix_skips_malformed :
    (∀ (df1 df2 : List RiskRecord) (r : RiskRecord), rowCounted r = false →
        build_matrix (df1 ++ r :: df2) = build_matrix (df1 ++ df2)) ∧
    build_matrix exampleTwo 1 2 = 1 ∧
    matrixSum (build_matrix exampleTwo) = 1 := by
  refine ⟨?_, by decide, by decide⟩
  intro df1 df2 r h
  unfold build_matrix
  rw [List.foldl_append, List.foldl_cons, mstep_skip _ r h, ← List.foldl_append]

/-- Witness for C3: dropping the malformed row (likelihood 3,
impact "abc") leaves the matrix unchanged. -/
theorem build_matrix_skips_malformed_witness :
    build_matrix ([mkRow (.intV 3) (.intV 4)] ++ mkRow (.intV 3) (.strV "abc") :: []) =
      build_matrix ([mkRow (.intV 3) (.intV 4)] ++ []) :=
  build_matrix_skips_malformed.1 [mkRow (.intV 3) (.intV 4)] []
    (mkRow (.intV 3) (.strV "abc")) (by decide)
